import Mathlib

/-
  Verification of the lambo economic core against its specification.

  Shallow embedding conventions:
  * Python ints are modelled as ℤ (or ℕ for identifiers and counts).
  * Python floats are modelled as ℚ; `int(x)` is truncation toward zero
    (`pyInt`), one-argument `round(x)` is round-half-to-even (`pyRound`).
  * Database rows are Lean structures; tables are lists; per-user columns
    are functions from user ids.
  * Exceptions are `Except`; an operation that raises leaves the state
    unchanged.
-/

namespace Lambo

/-- Truncation toward zero, the semantics of Python `int(...)` on a number. -/
def pyInt (q : ℚ) : ℤ := if 0 ≤ q then ⌊q⌋ else ⌈q⌉

/-- Round half to even, the semantics of one-argument Python `round(...)`. -/
def pyRound (q : ℚ) : ℤ :=
  let n := ⌊q⌋
  let f := q - n
  if f < 1/2 then n
  else if 1/2 < f then n + 1
  else if Even n then n else n + 1

theorem pyRound_intCast (n : ℤ) : pyRound (n : ℚ) = n := by
  norm_num [pyRound]

theorem pyInt_intCast (n : ℤ) : pyInt (n : ℚ) = n := by
  rcases le_or_lt 0 (n : ℚ) with h | h
  · simp [pyInt, h, Int.floor_intCast]
  · simp [pyInt, not_le.mpr h, Int.ceil_intCast]

/-! ## Ledger (src/api/app/services/ledger_service.py) -/

namespace Ledger

/-- One row of the `ledger` table: signed amount and resulting balance
(`Ledger` model, src/api/app/models/ledger.py). Action type, ref and note
do not influence balance arithmetic and are omitted. -/
structure Entry where
  amount : ℤ
  balanceAfter : ℤ
deriving Repr, DecidableEq

/-- The balance-relevant slice of one user row plus that user's ledger rows. -/
structure Account where
  balance : ℤ
  entries : List Entry
deriving Repr, DecidableEq

/-- Exceptions raised by `LedgerService.spend` / `earn`. -/
inductive Err where
  | valueError
  | insufficientBalance
deriving Repr, DecidableEq

/-- `LedgerService.spend`: reject non-positive amounts, raise
`InsufficientBalance` when `balance < amount`, otherwise decrement the
balance and append one negative entry carrying the new balance. -/
def spend (acct : Account) (amount : ℤ) : Except Err (Account × Entry) :=
  if amount ≤ 0 then .error .valueError
  else if acct.balance < amount then .error .insufficientBalance
  else
    let newBal := acct.balance - amount
    let e : Entry := { amount := -amount, balanceAfter := newBal }
    .ok ({ balance := newBal, entries := acct.entries ++ [e] }, e)

/-- `LedgerService.earn`: reject non-positive amounts, otherwise increment
the balance and append one positive entry carrying the new balance. -/
def earn (acct : Account) (amount : ℤ) : Except Err (Account × Entry) :=
  if amount ≤ 0 then .error .valueError
  else
    let newBal := acct.balance + amount
    let e : Entry := { amount := amount, balanceAfter := newBal }
    .ok ({ balance := newBal, entries := acct.entries ++ [e] }, e)

/-- A request against one account. -/
inductive Op where
  | spend (amount : ℤ)
  | earn (amount : ℤ)
deriving Repr, DecidableEq

/-- Run one operation; a raised exception leaves the account unchanged
(the service raises before any mutation). -/
def applyOp (acct : Account) (op : Op) : Account :=
  match op with
  | .spend a => match spend acct a with
    | .ok (acct', _) => acct'
    | .error _ => acct
  | .earn a => match earn acct a with
    | .ok (acct', _) => acct'
    | .error _ => acct

/-- Run a sequence of operations. -/
def runOps (acct : Account) (ops : List Op) : Account :=
  ops.foldl applyOp acct

/-- A fresh account: `User.available_balance` defaults to 0 and has no
ledger rows (src/api/app/models/user.py). -/
def initialAccount : Account := { balance := 0, entries := [] }

/-- The conservation-and-nonnegativity invariant of the claim. -/
def Inv (acct : Account) : Prop :=
  acct.balance = (acct.entries.map Entry.amount).sum ∧ 0 ≤ acct.balance

theorem inv_applyOp (acct : Account) (op : Op) (h : Inv acct) : Inv (applyOp acct op) := by
  obtain ⟨hsum, hpos⟩ := h
  cases op with
  | spend a =>
      by_cases h1 : a ≤ 0
      · have he : applyOp acct (.spend a) = acct := by simp [applyOp, spend, h1]
        rw [he]; exact ⟨hsum, hpos⟩
      · by_cases h2 : acct.balance < a
        · have he : applyOp acct (.spend a) = acct := by simp [applyOp, spend, h1, h2]
          rw [he]; exact ⟨hsum, hpos⟩
        · have he : applyOp acct (.spend a) =
              { balance := acct.balance - a,
                entries := acct.entries ++ [{ amount := -a, balanceAfter := acct.balance - a }] } := by
            simp [applyOp, spend, h1, h2]
          rw [he]
          refine ⟨?_, ?_⟩
          · simp [hsum, sub_eq_add_neg]
          · have := not_lt.mp h2
            simp only []
            omega
  | earn a =>
      by_cases h1 : a ≤ 0
      · have he : applyOp acct (.earn a) = acct := by simp [applyOp, earn, h1]
        rw [he]; exact ⟨hsum, hpos⟩
      · have he : applyOp acct (.earn a) =
            { balance := acct.balance + a,
              entries := acct.entries ++ [{ amount := a, balanceAfter := acct.balance + a }] } := by
          simp [applyOp, earn, h1]
        rw [he]
        refine ⟨?_, ?_⟩
        · simp [hsum]
        · have := not_le.mp h1
          simp only []
          omega

theorem inv_runOps (acct : Account) (ops : List Op) (h : Inv acct) : Inv (runOps acct ops) := by
  induction ops generalizing acct with
  | nil => simpa [runOps] using h
  | cons o rest ih =>
      simpa [runOps, List.foldl_cons] using ih (applyOp acct o) (inv_applyOp acct o h)

end Ledger

/-- C1: starting from a fresh account, after any finite sequence of spend
and earn operations (successful ones mutate, failing ones are rejected
before any write), the balance equals the sum of the amounts of the
account's ledger entries and is never negative. -/
theorem C1_ledger_conservation (ops : List Ledger.Op) :
    (Ledger.runOps Ledger.initialAccount ops).balance
      = ((Ledger.runOps Ledger.initialAccount ops).entries.map Ledger.Entry.amount).sum
    ∧ 0 ≤ (Ledger.runOps Ledger.initialAccount ops).balance :=
  Ledger.inv_runOps Ledger.initialAccount ops (by simp [Ledger.Inv, Ledger.initialAccount])

/-- C2: for a positive amount, spend fails with `InsufficientBalance`
exactly when the amount exceeds the balance; on failure the account is
unchanged (no entry, same balance), and on success the balance drops by
the amount and exactly one entry with `amount = -amount` and
`balance_after` equal to the new balance is appended. -/
theorem C2_spend_spec (acct : Ledger.Account) (amount : ℤ) (hpos : 0 < amount) :
    (acct.balance < amount →
        Ledger.spend acct amount = .error .insufficientBalance
        ∧ Ledger.applyOp acct (.spend amount) = acct)
    ∧ (amount ≤ acct.balance →
        Ledger.spend acct amount =
          .ok ({ balance := acct.balance - amount,
                 entries := acct.entries ++
                   [{ amount := -amount, balanceAfter := acct.balance - amount }] },
               { amount := -amount, balanceAfter := acct.balance - amount })) := by
  constructor
  · intro hlt
    constructor
    · simp [Ledger.spend, not_le.mpr hpos, hlt]
    · simp [Ledger.applyOp, Ledger.spend, not_le.mpr hpos, hlt]
  · intro hle
    simp [Ledger.spend, not_le.mpr hpos, not_lt.mpr hle]

/-- Witness for C2: the spec scenario — an account with balance 0 spending
100 fails with `InsufficientBalance` and is left unchanged. -/
theorem C2_spend_spec_witness :
    Ledger.spend { balance := 0, entries := [] } 100 = .error .insufficientBalance
    ∧ Ledger.applyOp { balance := 0, entries := [] } (.spend 100)
        = { balance := 0, entries := [] } :=
  (C2_spend_spec { balance := 0, entries := [] } 100 (by decide)).1 (by decide)

/-! ## Platform revenue and the 80/20 split
(src/api/app/services/ledger_service.py, src/api/app/models/revenue.py) -/

namespace Ledger

/-- The current day's `PlatformRevenue` row. -/
structure PlatformRevenue where
  likeRevenue : ℤ
  commentRevenue : ℤ
  postRevenue : ℤ
  boostRevenue : ℤ
  total : ℤ
deriving Repr, DecidableEq

/-- A fresh `PlatformRevenue` row (all columns default 0). -/
def emptyRevenue : PlatformRevenue :=
  { likeRevenue := 0, commentRevenue := 0, postRevenue := 0, boostRevenue := 0, total := 0 }

/-- `LedgerService._add_platform_revenue`: bump the column matching the
source tag (unknown tags touch no column) and always bump the total. -/
def addPlatformRevenue (rev : PlatformRevenue) (amount : ℤ) (source : String) : PlatformRevenue :=
  let rev :=
    if source = "like" then { rev with likeRevenue := rev.likeRevenue + amount }
    else if source = "comment" then { rev with commentRevenue := rev.commentRevenue + amount }
    else if source = "post" then { rev with postRevenue := rev.postRevenue + amount }
    else if source = "boost" then { rev with boostRevenue := rev.boostRevenue + amount }
    else rev
  { rev with total := rev.total + amount }

/-- The accounts and revenue row touched by `spend_with_split`. -/
structure SplitState where
  spenderId : ℕ
  authorId : ℕ
  spender : Account
  author : Account
  revenue : PlatformRevenue
deriving Repr, DecidableEq

/-- `CREATOR_SHARE = 0.80` modelled as an exact rational. -/
def CREATOR_SHARE : ℚ := 4/5

/-- `LedgerService.spend_with_split`: validate, compute
`author_share = int(amount * 0.80)` and `platform_share = amount - author_share`,
spend from the spender, pay the author their share when positive, add the
platform share to today's revenue when positive.  Returns the two shares. -/
def spendWithSplit (st : SplitState) (amount : ℤ) (source : String) :
    Except Err (SplitState × ℤ × ℤ) :=
  if amount ≤ 0 then .error .valueError
  else if st.spenderId = st.authorId then .error .valueError
  else
    let authorShare := pyInt ((amount : ℚ) * CREATOR_SHARE)
    let platformShare := amount - authorShare
    match spend st.spender amount with
    | .error e => .error e
    | .ok (spender', _) =>
      let st1 := { st with spender := spender' }
      let afterEarn : Except Err SplitState :=
        if 0 < authorShare then
          match earn st1.author authorShare with
          | .error e => .error e
          | .ok (author', _) => .ok { st1 with author := author' }
        else .ok st1
      match afterEarn with
      | .error e => .error e
      | .ok st2 =>
        let st3 :=
          if 0 < platformShare then
            { st2 with revenue := addPlatformRevenue st2.revenue platformShare source }
          else st2
        .ok (st3, authorShare, platformShare)

theorem pyInt_nonneg (q : ℚ) (h : 0 ≤ q) : pyInt q = ⌊q⌋ := by
  simp [pyInt, h]

end Ledger

/-- C10: on any successful `spend_with_split`, the author share is
`⌊0.80 × amount⌋` and the platform share is the exact remainder, so the two
shares always sum to the amount spent — the rounding remainder goes to the
platform. -/
theorem C10_split_conservation (st : Ledger.SplitState) (amount : ℤ) (source : String)
    (st' : Ledger.SplitState) (a p : ℤ)
    (h : Ledger.spendWithSplit st amount source = .ok (st', a, p)) :
    a = ⌊(amount : ℚ) * Ledger.CREATOR_SHARE⌋ ∧ a + p = amount := by
  have hfl : pyInt ((amount : ℚ) * Ledger.CREATOR_SHARE)
      = ⌊(amount : ℚ) * Ledger.CREATOR_SHARE⌋ := by
    by_cases h1 : amount ≤ 0
    · simp [Ledger.spendWithSplit, h1] at h
    · apply Ledger.pyInt_nonneg
      have h0 : (0 : ℚ) ≤ (amount : ℚ) := by
        exact_mod_cast le_of_lt (not_le.mp h1)
      have : (0 : ℚ) ≤ Ledger.CREATOR_SHARE := by norm_num [Ledger.CREATOR_SHARE]
      exact mul_nonneg h0 this
  simp only [Ledger.spendWithSplit] at h
  split at h
  · exact absurd h (by simp)
  · split at h
    · exact absurd h (by simp)
    · split at h
      · exact absurd h (by simp)
      · split at h
        · exact absurd h (by simp)
        · rw [Except.ok.injEq] at h
          simp only [Prod.mk.injEq] at h
          obtain ⟨-, ha, hp⟩ := h
          subst ha
          subst hp
          exact ⟨hfl, by omega⟩

/-- Witness for C10: spending 99 splits into 79 to the author and 20 to the
platform, summing back to 99. -/
theorem C10_split_conservation_witness :
    (79 : ℤ) = ⌊((99 : ℤ) : ℚ) * Ledger.CREATOR_SHARE⌋ ∧ (79 : ℤ) + 20 = 99 :=
  C10_split_conservation
    { spenderId := 1, authorId := 2,
      spender := { balance := 100, entries := [] },
      author := { balance := 0, entries := [] },
      revenue := Ledger.emptyRevenue }
    99 "like"
    { spenderId := 1, authorId := 2,
      spender := { balance := 1, entries := [{ amount := -99, balanceAfter := 1 }] },
      author := { balance := 79, entries := [{ amount := 79, balanceAfter := 79 }] },
      revenue := { likeRevenue := 20, commentRevenue := 0, postRevenue := 0,
                   boostRevenue := 0, total := 20 } }
    79 20 (by
      have hshare : pyInt (((99 : ℤ) : ℚ) * Ledger.CREATOR_SHARE) = 79 := by
        rw [Ledger.pyInt_nonneg _ (by norm_num [Ledger.CREATOR_SHARE]), Int.floor_eq_iff]
        norm_num [Ledger.CREATOR_SHARE]
      simp only [Ledger.spendWithSplit, hshare]
      rfl)

/-! ## Trust scores (src/api/app/services/trust_service.py) -/

namespace Trust

/-- `_clamp`: sub-scores live in `[0, 99999]`. -/
def clamp (v : ℤ) : ℤ := max 0 (min 99999 v)

/-- `compute_trust_score` (S8 formula):
`Creator × 0.6 + Curator × 0.3 + Juror_bonus - Risk_penalty`, rounded and
clamped below at 0.  The risk penalty is `(risk/50)²` up to risk 100 and
`125 + (risk-100) × 5` above. -/
def compute_trust_score (creator curator juror risk : ℤ) : ℤ :=
  let base : ℚ := (creator : ℚ) * (3/5) + (curator : ℚ) * (3/10)
  let jurorBonus : ℚ := max 0 (((juror : ℚ) - 300) * (1/10))
  let riskPenalty : ℚ :=
    if risk ≤ 100 then ((risk : ℚ) / 50) ^ 2 else 125 + ((risk : ℚ) - 100) * 5
  max 0 (pyRound (base + jurorBonus - riskPenalty))

/-- The five visual tiers. -/
inductive TrustTier where
  | white | green | blue | purple | orange
deriving Repr, DecidableEq

/-- `trust_tier` (S8 ranges), defaulting to white outside every band. -/
def trust_tier (t : ℤ) : TrustTier :=
  if 0 ≤ t ∧ t ≤ 150 then .white
  else if 151 ≤ t ∧ t ≤ 250 then .green
  else if 251 ≤ t ∧ t ≤ 400 then .blue
  else if 401 ≤ t ∧ t ≤ 700 then .purple
  else if 701 ≤ t ∧ t ≤ 99999 then .orange
  else .white

/-- `dynamic_fee_multiplier`: `K(trust) = clamp(1.4 - trust/1250, 0.6, 1.4)`
(the inner `round(k, 4)` cannot change the clamped value's bounds and is
kept as exact rational arithmetic). -/
def dynamic_fee_multiplier (t : ℤ) : ℚ :=
  max (3/5) (min (7/5) (7/5 - (t : ℚ) / 1250))

/-- The trust sub-score columns of one user row. -/
structure TUser where
  creator : ℤ
  curator : ℤ
  juror : ℤ
  risk : ℤ
  trustScore : ℤ
deriving Repr, DecidableEq

/-- `TrustScoreService.update_creator`: clamp the adjusted CreatorScore and
recompute the composite. -/
def update_creator (u : TUser) (delta : ℤ) : TUser :=
  let c := clamp (u.creator + delta)
  { u with creator := c,
           trustScore := compute_trust_score c u.curator u.juror u.risk }

/-- `TrustScoreService.update_curator`. -/
def update_curator (u : TUser) (delta : ℤ) : TUser :=
  let c := clamp (u.curator + delta)
  { u with curator := c,
           trustScore := compute_trust_score u.creator c u.juror u.risk }

/-- `TrustScoreService.update_risk`. -/
def update_risk (u : TUser) (delta : ℤ) : TUser :=
  let r := clamp (u.risk + delta)
  { u with risk := r,
           trustScore := compute_trust_score u.creator u.curator u.juror r }

end Trust

/-! ## Challenge settlement (src/api/app/services/challenge_service.py) -/

namespace Challenge

/-- `PostStatus` (src/api/app/models/post.py). -/
inductive PostStatus where
  | active | deleted | challenged
deriving Repr, DecidableEq

/-- `FINE_P = 1.0`: the guilty fine is `cost_paid × FINE_P`. -/
def FINE_P : ℚ := 1

/-- `CHALLENGER_REWARD_PCT = 0.35`. -/
def CHALLENGER_REWARD_PCT : ℚ := 7/20

/-- `AUTHOR_VINDICATION_PCT = 0.20`. -/
def AUTHOR_VINDICATION_PCT : ℚ := 1/5

/-- The state touched by challenge settlement: the two parties' trust rows
and balances, the challenged post's status, the recorded fine, and the
platform revenue row (which `_settle_not_guilty` would have to touch to
route the fee remainder anywhere). -/
structure ChState where
  author : Trust.TUser
  challenger : Trust.TUser
  authorBalance : ℤ
  challengerBalance : ℤ
  postStatus : PostStatus
  fineAmount : ℤ
  revenue : Ledger.PlatformRevenue
deriving Repr, DecidableEq

/-- `ChallengeService._settle_guilty` for a post: delete the content, fine
the author `max(1, round(cost_paid × FINE_P))` — in full when the balance
suffices, otherwise only the available balance plus a +30 risk bump — then
pay the challenger their fee refund plus `round(fine × 0.35)` when that
total is positive, and apply the trust deltas (author creator −30, author
risk +20, challenger creator +5). -/
def settleGuilty (contentCost feePaid : ℤ) (s : ChState) : ChState :=
  let fine0 := max 1 (pyRound ((contentCost : ℚ) * FINE_P))
  -- `challenge.fine_amount` is set to the full fine before the branch and
  -- never updated afterwards, even when only part is collectable.
  let sufficient := fine0 ≤ s.authorBalance
  -- sufficient: spend `fine0`; insufficient: spend the collectable part
  -- `max(0, balance)` (a no-op when it is 0) and bump risk by 30.
  let charged := if sufficient then fine0 else max 0 s.authorBalance
  let author1 := if sufficient then s.author else Trust.update_risk s.author 30
  -- `fine` is reassigned to the actually charged amount before the reward.
  let reward := pyRound ((charged : ℚ) * CHALLENGER_REWARD_PCT)
  let totalChallenger := feePaid + reward
  { author := Trust.update_risk (Trust.update_creator author1 (-30)) 20,
    challenger := Trust.update_creator s.challenger 5,
    authorBalance := s.authorBalance - charged,
    challengerBalance :=
      if 0 < totalChallenger then s.challengerBalance + totalChallenger
      else s.challengerBalance,
    postStatus := .deleted,
    fineAmount := fine0,
    revenue := s.revenue }

/-- `ChallengeService._settle_not_guilty`: pay the author
`round(fee × 0.20)` when positive and bump the author's creator score
by 3; nothing else changes — in particular nothing is added to the
platform revenue pool and the challenger row is untouched. -/
def settleNotGuilty (feePaid : ℤ) (s : ChState) : ChState :=
  let authorShare := pyRound ((feePaid : ℚ) * AUTHOR_VINDICATION_PCT)
  let s :=
    if 0 < authorShare then { s with authorBalance := s.authorBalance + authorShare } else s
  { s with author := Trust.update_creator s.author 3 }

end Challenge

theorem pyRound_nonneg (q : ℚ) (h : 0 ≤ q) : 0 ≤ pyRound q := by
  have hf : 0 ≤ ⌊q⌋ := Int.floor_nonneg.mpr h
  simp only [pyRound]
  split_ifs <;> omega

theorem pyRound_mul_one (n : ℤ) : pyRound ((n : ℚ) * 1) = n := by
  rw [mul_one, pyRound_intCast]

/-- C6: on a guilty verdict with fine `F = max(1, cost_paid)` (FINE_P = 1):
with sufficient author balance the content is deleted, the author pays
exactly `F`, the challenger receives their fee refund plus `round(0.35 × F)`,
the author's creator score strictly drops and risk score strictly rises,
and the challenger's creator score is bumped by 5; with insufficient
balance the whole available balance is collected and the author's risk
score still strictly rises (the shortfall is penalised, not raised as an
error). -/
theorem C6_guilty_settlement (s : Challenge.ChState) (contentCost feePaid : ℤ)
    (hfee : 0 ≤ feePaid) (hcre : 0 < s.author.creator)
    (hrisk0 : 0 ≤ s.author.risk) (hrisk1 : s.author.risk < 99999) :
    (max 1 contentCost ≤ s.authorBalance →
      (Challenge.settleGuilty contentCost feePaid s).postStatus = .deleted
      ∧ (Challenge.settleGuilty contentCost feePaid s).authorBalance
          = s.authorBalance - max 1 contentCost
      ∧ (Challenge.settleGuilty contentCost feePaid s).challengerBalance
          = s.challengerBalance + feePaid
              + pyRound (((max 1 contentCost : ℤ) : ℚ) * Challenge.CHALLENGER_REWARD_PCT)
      ∧ (Challenge.settleGuilty contentCost feePaid s).author.creator < s.author.creator
      ∧ s.author.risk < (Challenge.settleGuilty contentCost feePaid s).author.risk
      ∧ (Challenge.settleGuilty contentCost feePaid s).challenger.creator
          = Trust.clamp (s.challenger.creator + 5))
    ∧ (0 ≤ s.authorBalance → s.authorBalance < max 1 contentCost →
      (Challenge.settleGuilty contentCost feePaid s).postStatus = .deleted
      ∧ (Challenge.settleGuilty contentCost feePaid s).authorBalance = 0
      ∧ s.author.risk < (Challenge.settleGuilty contentCost feePaid s).author.risk) := by
  have hfine : max 1 (pyRound ((contentCost : ℚ) * Challenge.FINE_P)) = max 1 contentCost := by
    rw [Challenge.FINE_P, pyRound_mul_one]
  have hpct : (0 : ℚ) ≤ Challenge.CHALLENGER_REWARD_PCT := by
    norm_num [Challenge.CHALLENGER_REWARD_PCT]
  constructor
  · intro hbal
    have hrew : 0 ≤ pyRound (((max 1 contentCost : ℤ) : ℚ) * Challenge.CHALLENGER_REWARD_PCT) := by
      apply pyRound_nonneg
      have h1 : (0 : ℚ) ≤ ((max 1 contentCost : ℤ) : ℚ) := by
        exact_mod_cast le_trans (by omega) (le_max_left 1 contentCost)
      exact mul_nonneg h1 hpct
    refine ⟨?_, ?_, ?_, ?_, ?_, ?_⟩ <;>
      simp only [Challenge.settleGuilty, hfine, if_pos hbal, Trust.update_creator,
        Trust.update_risk, Trust.clamp] <;>
      (try split_ifs) <;>
      first
        | rfl
        | omega
  · intro hnn hlt
    have hnot : ¬ max 1 contentCost ≤ s.authorBalance := not_le.mpr hlt
    have hrew : 0 ≤ pyRound (((max 0 s.authorBalance : ℤ) : ℚ) * Challenge.CHALLENGER_REWARD_PCT) := by
      apply pyRound_nonneg
      have h1 : (0 : ℚ) ≤ ((max 0 s.authorBalance : ℤ) : ℚ) := by
        exact_mod_cast le_max_left 0 s.authorBalance
      exact mul_nonneg h1 hpct
    refine ⟨?_, ?_, ?_⟩ <;>
      simp only [Challenge.settleGuilty, hfine, if_neg hnot, Trust.update_creator,
        Trust.update_risk, Trust.clamp] <;>
      first
        | rfl
        | omega

/-- Witness for C6: the spec scenario — guilty with fine 200 and author
balance 500: author drops to 300, challenger (fee 100) receives 170. -/
theorem C6_guilty_settlement_witness :
    (Challenge.settleGuilty 200 100
      { author := { creator := 150, curator := 150, juror := 300, risk := 30, trustScore := 135 },
        challenger := { creator := 150, curator := 150, juror := 300, risk := 30, trustScore := 135 },
        authorBalance := 500, challengerBalance := 0, postStatus := .active,
        fineAmount := 0, revenue := Ledger.emptyRevenue }).authorBalance = 300
    ∧ (Challenge.settleGuilty 200 100
      { author := { creator := 150, curator := 150, juror := 300, risk := 30, trustScore := 135 },
        challenger := { creator := 150, curator := 150, juror := 300, risk := 30, trustScore := 135 },
        authorBalance := 500, challengerBalance := 0, postStatus := .active,
        fineAmount := 0, revenue := Ledger.emptyRevenue }).challengerBalance = 170 := by
  have h := (C6_guilty_settlement
    { author := { creator := 150, curator := 150, juror := 300, risk := 30, trustScore := 135 },
      challenger := { creator := 150, curator := 150, juror := 300, risk := 30, trustScore := 135 },
      authorBalance := 500, challengerBalance := 0, postStatus := .active,
      fineAmount := 0, revenue := Ledger.emptyRevenue }
    200 100 (by norm_num) (by norm_num) (by norm_num) (by norm_num)).1 (by norm_num)
  obtain ⟨-, hbal, hch, -, -, -⟩ := h
  have hm : max (1 : ℤ) 200 = 200 := by norm_num
  have h35 : pyRound (((max 1 (200 : ℤ) : ℤ) : ℚ) * Challenge.CHALLENGER_REWARD_PCT) = 70 := by
    rw [hm]
    have heq : (((200 : ℤ) : ℤ) : ℚ) * Challenge.CHALLENGER_REWARD_PCT = ((70 : ℤ) : ℚ) := by
      norm_num [Challenge.CHALLENGER_REWARD_PCT]
    rw [heq, pyRound_intCast]
  constructor
  · rw [hbal, hm]; norm_num
  · rw [hch, h35]; norm_num

/-- C7 (amended): on a not-guilty verdict the author receives
`round(0.20 × fee)` and a +3 creator bump; the fee remainder is NOT routed
to the platform pool (the revenue row is untouched) and the challenger's
row and balance are unchanged. -/
theorem C7_not_guilty_settlement (s : Challenge.ChState) (feePaid : ℤ) (hfee : 0 ≤ feePaid) :
    (Challenge.settleNotGuilty feePaid s).authorBalance
        = s.authorBalance + pyRound ((feePaid : ℚ) * Challenge.AUTHOR_VINDICATION_PCT)
    ∧ (Challenge.settleNotGuilty feePaid s).revenue = s.revenue
    ∧ (Challenge.settleNotGuilty feePaid s).author.creator = Trust.clamp (s.author.creator + 3)
    ∧ (Challenge.settleNotGuilty feePaid s).challenger = s.challenger
    ∧ (Challenge.settleNotGuilty feePaid s).challengerBalance = s.challengerBalance := by
  have hrew : 0 ≤ pyRound ((feePaid : ℚ) * Challenge.AUTHOR_VINDICATION_PCT) := by
    apply pyRound_nonneg
    have h1 : (0 : ℚ) ≤ (feePaid : ℚ) := by exact_mod_cast hfee
    have h2 : (0 : ℚ) ≤ Challenge.AUTHOR_VINDICATION_PCT := by
      norm_num [Challenge.AUTHOR_VINDICATION_PCT]
    exact mul_nonneg h1 h2
  simp only [Challenge.settleNotGuilty, Trust.update_creator]
  split_ifs with hpos
  · exact ⟨rfl, rfl, rfl, rfl, rfl⟩
  · exact ⟨by omega, rfl, rfl, rfl, rfl⟩

/-- Witness for C7's amended statement at fee 100. -/
theorem C7_not_guilty_settlement_witness :
    (Challenge.settleNotGuilty 100
      { author := { creator := 150, curator := 150, juror := 300, risk := 30, trustScore := 135 },
        challenger := { creator := 150, curator := 150, juror := 300, risk := 30, trustScore := 135 },
        authorBalance := 0, challengerBalance := 0, postStatus := .active,
        fineAmount := 0, revenue := Ledger.emptyRevenue }).authorBalance = 20 := by
  have h := (C7_not_guilty_settlement
    { author := { creator := 150, curator := 150, juror := 300, risk := 30, trustScore := 135 },
      challenger := { creator := 150, curator := 150, juror := 300, risk := 30, trustScore := 135 },
      authorBalance := 0, challengerBalance := 0, postStatus := .active,
      fineAmount := 0, revenue := Ledger.emptyRevenue } 100 (by norm_num)).1
  have h20 : pyRound (((100 : ℤ) : ℚ) * Challenge.AUTHOR_VINDICATION_PCT) = 20 := by
    have : (((100 : ℤ) : ℤ) : ℚ) * Challenge.AUTHOR_VINDICATION_PCT = ((20 : ℤ) : ℚ) := by
      norm_num [Challenge.AUTHOR_VINDICATION_PCT]
    rw [this, pyRound_intCast]
  rw [h, h20]
  norm_num

/-- C7 counterexample: the claim as stated says the remainder of the fee
(80 sat of a 100 sat fee) is routed to the platform pool; the code routes
nothing — the platform revenue row is unchanged by `_settle_not_guilty`. -/
theorem C7_not_guilty_counterexample :
    (Challenge.settleNotGuilty 100
      { author := { creator := 150, curator := 150, juror := 300, risk := 30, trustScore := 135 },
        challenger := { creator := 150, curator := 150, juror := 300, risk := 30, trustScore := 135 },
        authorBalance := 0, challengerBalance := 0, postStatus := .active,
        fineAmount := 0, revenue := Ledger.emptyRevenue }).revenue.total = 0
    ∧ (0 : ℤ) ≠ 100 - 20 := by
  constructor
  · simp [Challenge.settleNotGuilty, Trust.update_creator, Ledger.emptyRevenue]
    split_ifs <;> rfl
  · norm_num

/-! ## Simulator reputation (src/simulator/models.py, src/simulator/config.py) -/

namespace Sim

/-- The four reputation dimensions of `ReputationScores`. -/
inductive Dim where
  | creator | curator | juror | risk
deriving Repr, DecidableEq

/-- `ReputationScores` (simulator): four float dimensions. -/
structure ReputationScores where
  creator : ℚ
  curator : ℚ
  juror : ℚ
  risk : ℚ
deriving Repr, DecidableEq

/-- `TIER_REWARD_MULTIPLIER` (src/simulator/config.py, identical to the API
table in trust_service.py): higher tiers earn reduced reputation rewards. -/
def TIER_REWARD_MULTIPLIER : Trust.TrustTier → ℚ
  | .white => 1
  | .green => 7/10
  | .blue => 1/2
  | .purple => 3/10
  | .orange => 3/20

/-- `ReputationScores.apply_change`: a negative change is applied at full
magnitude, a non-negative change is scaled by `tier_multiplier` — except
that changes to the `risk` dimension always use the raw change and clamp
to `[0, 1000]`. -/
def apply_change (r : ReputationScores) (dim : Dim) (change tierMultiplier : ℚ) :
    ReputationScores :=
  let effective := if change < 0 then change else change * tierMultiplier
  match dim with
  | .creator => { r with creator := max 0 (r.creator + effective) }
  | .curator => { r with curator := max 0 (r.curator + effective) }
  | .juror => { r with juror := max 0 (r.juror + effective) }
  | .risk => { r with risk := max 0 (min 1000 (r.risk + change)) }

/-- Projection of the dimension named by `dim`. -/
def dimValue (r : ReputationScores) : Dim → ℚ
  | .creator => r.creator
  | .curator => r.curator
  | .juror => r.juror
  | .risk => r.risk

end Sim

/-- C8 (amended): in the simulator's `apply_change`, for the creator,
curator and juror dimensions a negative delta is applied at full magnitude
and a non-negative delta is scaled by the tier multiplier, and the tier
multipliers are strictly decreasing toward higher tiers; but risk changes
are never scaled, and the API's `TrustScoreService.update_creator` applies
every delta unscaled. -/
theorem C8_reputation_scaling (r : Sim.ReputationScores) (dim : Sim.Dim) (c m : ℚ)
    (hdim : dim ≠ .risk) :
    (c < 0 → Sim.dimValue (Sim.apply_change r dim c m) dim = max 0 (Sim.dimValue r dim + c))
    ∧ (0 ≤ c →
        Sim.dimValue (Sim.apply_change r dim c m) dim = max 0 (Sim.dimValue r dim + c * m))
    ∧ (Sim.apply_change r .risk c m).risk = max 0 (min 1000 (r.risk + c))
    ∧ ((Trust.update_creator
          { creator := 900, curator := 150, juror := 300, risk := 30, trustScore := 0 }
          10).creator = 910)
    ∧ Sim.TIER_REWARD_MULTIPLIER .orange < Sim.TIER_REWARD_MULTIPLIER .purple
    ∧ Sim.TIER_REWARD_MULTIPLIER .purple < Sim.TIER_REWARD_MULTIPLIER .blue
    ∧ Sim.TIER_REWARD_MULTIPLIER .blue < Sim.TIER_REWARD_MULTIPLIER .green
    ∧ Sim.TIER_REWARD_MULTIPLIER .green < Sim.TIER_REWARD_MULTIPLIER .white := by
  refine ⟨?_, ?_, ?_, ?_, ?_, ?_, ?_, ?_⟩
  · intro hc
    cases dim <;> simp [Sim.apply_change, Sim.dimValue, hc] at hdim ⊢
  · intro hc
    cases dim <;> simp [Sim.apply_change, Sim.dimValue, not_lt.mpr hc] at hdim ⊢
  · simp [Sim.apply_change]
  · simp [Trust.update_creator, Trust.clamp]
  · norm_num [Sim.TIER_REWARD_MULTIPLIER]
  · norm_num [Sim.TIER_REWARD_MULTIPLIER]
  · norm_num [Sim.TIER_REWARD_MULTIPLIER]
  · norm_num [Sim.TIER_REWARD_MULTIPLIER]

/-- Witness for C8's amended statement: a creator delta of −30 is applied
in full even at the orange multiplier. -/
theorem C8_reputation_scaling_witness :
    Sim.dimValue
      (Sim.apply_change { creator := 150, curator := 150, juror := 300, risk := 30 }
        .creator (-30) (Sim.TIER_REWARD_MULTIPLIER .orange)) .creator = 120 := by
  have h := (C8_reputation_scaling
    { creator := 150, curator := 150, juror := 300, risk := 30 }
    .creator (-30) (Sim.TIER_REWARD_MULTIPLIER .orange) (by decide)).1 (by norm_num)
  rw [h]
  norm_num [Sim.dimValue]

/-- C8 counterexample: the claim says every positive reputation delta is
scaled down by the tier multiplier; a +10 risk change under the orange
multiplier 0.15 lands at full magnitude (risk 30 → 40, not 31.5), and the
API's `update_creator` adds +10 unscaled to a creator score of 900. -/
theorem C8_reputation_scaling_counterexample :
    (Sim.apply_change { creator := 150, curator := 150, juror := 300, risk := 30 }
        .risk 10 (Sim.TIER_REWARD_MULTIPLIER .orange)).risk = 40
    ∧ (30 : ℚ) + 10 * Sim.TIER_REWARD_MULTIPLIER .orange ≠ 40
    ∧ (Trust.update_creator
        { creator := 900, curator := 150, juror := 300, risk := 30, trustScore := 0 }
        10).creator = 910
    ∧ (900 : ℤ) + 10 ≠ 901 := by
  refine ⟨?_, ?_, ?_, ?_⟩
  · norm_num [Sim.apply_change]
  · norm_num [Sim.TIER_REWARD_MULTIPLIER]
  · simp [Trust.update_creator, Trust.clamp]
  · norm_num

/-! ## Cabal detection (src/simulator/engine.py detect_cabal_activity,
src/simulator/config.py) -/

namespace Cabal

/-- `CABAL_DETECTION_RATIO = 3` (internal/external above this triggers). -/
def CABAL_DETECTION_THRESHOLD : ℚ := 3

/-- `CABAL_ASSET_SEIZURE_BASE = 0.3`. -/
def CABAL_ASSET_SEIZURE_BASE : ℚ := 3/10

/-- `CABAL_MAX_SEIZURE_RATE = 0.8`. -/
def CABAL_MAX_SEIZURE_RATE : ℚ := 4/5

/-- `CABAL_PENALTY_DURATION_DAYS = 30`. -/
def CABAL_PENALTY_DURATION_DAYS : ℤ := 30

/-- `CABAL_VOLUME_THRESHOLD = 50` (average internal interactions per member). -/
def CABAL_VOLUME_THRESHOLD : ℚ := 50

/-- The slice of a simulator `User` touched by cabal detection;
`interHist` is `interaction_history` (counterparty id → count). -/
structure Member where
  id : ℕ
  balance : ℚ
  totalPenalty : ℚ
  interHist : List (ℕ × ℕ)
  reputation : Sim.ReputationScores
  isCabalPenalized : Bool
  cabalPenaltyUntil : ℤ
deriving Repr, DecidableEq

/-- Total interaction count of all members with counterparties inside the
cabal's member-id set. -/
def totalInternal (memberIds : List ℕ) (members : List Member) : ℕ :=
  (members.map (fun m =>
    ((m.interHist.filter (fun p => memberIds.contains p.1)).map Prod.snd).sum)).sum

/-- Total interaction count of all members with outside counterparties. -/
def totalExternal (memberIds : List ℕ) (members : List Member) : ℕ :=
  (members.map (fun m =>
    ((m.interHist.filter (fun p => !(memberIds.contains p.1))).map Prod.snd).sum)).sum

/-- The dynamic seizure rate (B2):
`min(MAX, BASE × min(2, ratio/3) × min(1.5, days_active/30))` with
`days_active = max(1, current_day - 1)`. -/
def seizureRate (rq : ℚ) (currentDay : ℤ) : ℚ :=
  let daysActive : ℤ := max 1 (currentDay - 1)
  let ratioMultiplier := min 2 (rq / CABAL_DETECTION_THRESHOLD)
  let durationMultiplier := min (3/2) ((daysActive : ℚ) / 30)
  min CABAL_MAX_SEIZURE_RATE
    (CABAL_ASSET_SEIZURE_BASE * ratioMultiplier * durationMultiplier)

/-- Per-member punishment: risk bump (random draw `dRisk`, unscaled),
creator slash toward a floor of 100 by fraction `u1 ∈ [0.5, 0.8]`, curator
slash by `u2 ∈ [0.3, 0.5]`, the time-boxed behaviour penalty, and the
dynamic asset seizure. The three random draws are passed in as an oracle
indexed by member id. Returns the updated member and the seized amount. -/
def punishMember (draws : ℕ → ℚ × ℚ × ℚ) (currentDay : ℤ) (rate : ℚ) (m : Member) :
    Member × ℚ :=
  let d := draws m.id
  let rep1 := Sim.apply_change m.reputation .risk d.1 1
  let creatorSlash := rep1.creator * d.2.1
  let rep2 := { rep1 with creator := max 100 (rep1.creator - creatorSlash) }
  let curatorSlash := rep2.curator * d.2.2
  let rep3 := { rep2 with curator := max 100 (rep2.curator - curatorSlash) }
  let seizure := m.balance * rate
  ({ m with reputation := rep3,
            isCabalPenalized := true,
            cabalPenaltyUntil := currentDay + CABAL_PENALTY_DURATION_DAYS,
            balance := m.balance - seizure,
            totalPenalty := m.totalPenalty + seizure }, seizure)

/-- `detect_cabal_activity` for a single undetected cabal: skip groups
with fewer than 3 resolvable members, compute the internal/external ratio
(`total_internal / max(total_external, 1)`, float division) and the volume
trigger, and on detection punish every member and route all seized funds
to the reward pool. Returns (members, reward pool, detected flag). -/
def detectCabal (draws : ℕ → ℚ × ℚ × ℚ) (memberIds : List ℕ) (members : List Member)
    (currentDay : ℤ) (rewardPool : ℚ) : List Member × ℚ × Bool :=
  if members.length < 3 then (members, rewardPool, false)
  else
    let ti := totalInternal memberIds members
    let te := totalExternal memberIds members
    let rq : ℚ := (ti : ℚ) / ((max te 1 : ℕ) : ℚ)
    let ratioTrigger := CABAL_DETECTION_THRESHOLD < rq
    let avgInternalPerMember : ℚ := (ti : ℚ) / (members.length : ℚ)
    let volumeTrigger := CABAL_VOLUME_THRESHOLD < avgInternalPerMember
    if ratioTrigger ∨ volumeTrigger then
      let rate := seizureRate rq currentDay
      let punished := members.map (punishMember draws currentDay rate)
      (punished.map Prod.fst, rewardPool + (punished.map Prod.snd).sum, true)
    else (members, rewardPool, false)

end Cabal

theorem Cabal.punish_balance_sum (draws : ℕ → ℚ × ℚ × ℚ) (currentDay : ℤ) (rate : ℚ)
    (ms : List Cabal.Member) :
    (((ms.map (Cabal.punishMember draws currentDay rate)).map Prod.fst).map
        Cabal.Member.balance).sum
      + ((ms.map (Cabal.punishMember draws currentDay rate)).map Prod.snd).sum
    = (ms.map Cabal.Member.balance).sum := by
  induction ms with
  | nil => simp
  | cons m t ih =>
      simp only [List.map_cons, List.sum_cons, Cabal.punishMember]
      linarith [ih]

/-- C9 (amended): on detection (internal/external ratio above 3 or average
internal volume above 50), each member's balance is reduced by the dynamic
seizure fraction `min(0.8, 0.3 × min(2, ratio/3) × min(1.5, days/30))`,
which always lies in `[0, 0.8]` but can fall below 0.3; the seized amounts
are routed to the reward pool in full (balance decrease = pool increase),
and the behaviour penalty is applied until `current_day + 30`. -/
theorem C9_cabal_seizure (draws : ℕ → ℚ × ℚ × ℚ) (memberIds : List ℕ)
    (members : List Cabal.Member) (currentDay : ℤ) (pool : ℚ) :
    (∀ rq : ℚ, 0 ≤ rq →
        0 ≤ Cabal.seizureRate rq currentDay
        ∧ Cabal.seizureRate rq currentDay ≤ Cabal.CABAL_MAX_SEIZURE_RATE)
    ∧ (∀ (m : Cabal.Member) (rate : ℚ),
        (Cabal.punishMember draws currentDay rate m).1.balance
            + (Cabal.punishMember draws currentDay rate m).2 = m.balance
        ∧ (Cabal.punishMember draws currentDay rate m).1.isCabalPenalized = true
        ∧ (Cabal.punishMember draws currentDay rate m).1.cabalPenaltyUntil
            = currentDay + Cabal.CABAL_PENALTY_DURATION_DAYS)
    ∧ (Cabal.detectCabal draws memberIds members currentDay pool).2.1
        = pool + ((members.map Cabal.Member.balance).sum
            - (((Cabal.detectCabal draws memberIds members currentDay pool).1.map
                Cabal.Member.balance)).sum) := by
  refine ⟨?_, ?_, ?_⟩
  · intro rq hrq
    have hd : (0 : ℚ) ≤ ((max 1 (currentDay - 1) : ℤ) : ℚ) := by
      exact_mod_cast le_trans zero_le_one (le_max_left 1 (currentDay - 1))
    constructor
    · apply le_min
      · norm_num [Cabal.CABAL_MAX_SEIZURE_RATE]
      · have h1 : (0 : ℚ) ≤ min 2 (rq / Cabal.CABAL_DETECTION_THRESHOLD) := by
          apply le_min
          · norm_num
          · have : (0 : ℚ) < Cabal.CABAL_DETECTION_THRESHOLD := by
              norm_num [Cabal.CABAL_DETECTION_THRESHOLD]
            positivity
        have h2 : (0 : ℚ) ≤ min (3/2 : ℚ) (((max 1 (currentDay - 1) : ℤ) : ℚ) / 30) := by
          apply le_min
          · norm_num
          · positivity
        have h3 : (0 : ℚ) ≤ Cabal.CABAL_ASSET_SEIZURE_BASE := by
          norm_num [Cabal.CABAL_ASSET_SEIZURE_BASE]
        exact mul_nonneg (mul_nonneg h3 h1) h2
    · exact min_le_left _ _
  · intro m rate
    refine ⟨?_, rfl, rfl⟩
    simp only [Cabal.punishMember]
    ring
  · simp only [Cabal.detectCabal]
    split_ifs
    · simp
    · have h := Cabal.punish_balance_sum draws currentDay
        (Cabal.seizureRate
          ((Cabal.totalInternal memberIds members : ℚ)
            / ((max (Cabal.totalExternal memberIds members) 1 : ℕ) : ℚ)) currentDay)
        members
      linarith [h]
    · simp

/-- Witness for C9's amended statement: at ratio 4 on day 2 the rate is
within `[0, 0.8]`, and a punished member's balance drop equals the seized
amount. -/
theorem C9_cabal_seizure_witness :
    (0 ≤ Cabal.seizureRate 4 2 ∧ Cabal.seizureRate 4 2 ≤ Cabal.CABAL_MAX_SEIZURE_RATE) :=
  (C9_cabal_seizure (fun _ => (0, 0, 0)) [] [] 2 0).1 4 (by norm_num)

/-- A cabal member used in the C9 counterexample: balance 100, 8 internal
interactions (with member `j`) and 2 external ones (with user 100). -/
def cexMember (i j : ℕ) : Cabal.Member :=
  { id := i, balance := 100, totalPenalty := 0,
    interHist := [(j, 8), (100, 2)],
    reputation := { creator := 150, curator := 150, juror := 300, risk := 30 },
    isCabalPenalized := false, cabalPenaltyUntil := 0 }

/-- C9 counterexample: a 5-member cabal with internal/external ratio 4 is
detected on day 2, but the seizure fraction is
`min(0.8, 0.3 × (4/3) × (1/30)) = 1/75 ≈ 0.013`, far below the claimed
lower bound 0.3 — each balance of 100 drops only to 296/3 ≈ 98.7. -/
theorem C9_cabal_seizure_counterexample :
    (Cabal.detectCabal (fun _ => (0, 0, 0)) [1, 2, 3, 4, 5]
        [cexMember 1 2, cexMember 2 3, cexMember 3 4, cexMember 4 5, cexMember 5 1]
        2 0).2.2 = true
    ∧ Cabal.seizureRate 4 2 = 1/75
    ∧ ((Cabal.detectCabal (fun _ => (0, 0, 0)) [1, 2, 3, 4, 5]
        [cexMember 1 2, cexMember 2 3, cexMember 3 4, cexMember 4 5, cexMember 5 1]
        2 0).1.map Cabal.Member.balance)
        = [296/3, 296/3, 296/3, 296/3, 296/3]
    ∧ ¬((3/10 : ℚ) ≤ 1/75) := by
  have hti : Cabal.totalInternal [1, 2, 3, 4, 5]
      [cexMember 1 2, cexMember 2 3, cexMember 3 4, cexMember 4 5, cexMember 5 1] = 40 := by
    simp [Cabal.totalInternal, cexMember]
  have hte : Cabal.totalExternal [1, 2, 3, 4, 5]
      [cexMember 1 2, cexMember 2 3, cexMember 3 4, cexMember 4 5, cexMember 5 1] = 10 := by
    simp [Cabal.totalExternal, cexMember]
  have hrate : Cabal.seizureRate 4 2 = 1/75 := by
    norm_num [Cabal.seizureRate, Cabal.CABAL_DETECTION_THRESHOLD,
      Cabal.CABAL_ASSET_SEIZURE_BASE, Cabal.CABAL_MAX_SEIZURE_RATE]
  refine ⟨?_, hrate, ?_, by norm_num⟩
  · simp only [Cabal.detectCabal, hti, hte]
    norm_num [Cabal.CABAL_DETECTION_THRESHOLD, Cabal.CABAL_VOLUME_THRESHOLD]
  · simp only [Cabal.detectCabal, hti, hte]
    norm_num [Cabal.CABAL_DETECTION_THRESHOLD, Cabal.CABAL_VOLUME_THRESHOLD,
      Cabal.punishMember, hrate, cexMember]

/-! ## Discovery Score (src/api/app/services/discovery_service.py) and the
six-factor like weight (src/api/app/services/like_weight_service.py) -/

namespace Discovery

/-- The data the settlement queries resolve for one like: the liker's
stored `trust_score` column, their four sub-score columns, the
`InteractionLog` count toward the author in the trailing 30 days, and
whether the liker follows the author. -/
structure LikeInfo where
  trustScore : ℤ
  creator : ℤ
  curator : ℤ
  juror : ℤ
  risk : ℤ
  interCount : ℕ
  follows : Bool
deriving Repr, DecidableEq

/-- `w_trust` over `W_TRUST_TABLE` (discovery_service.py), default 0.5. -/
def w_trust (t : ℤ) : ℚ :=
  if 0 ≤ t ∧ t ≤ 399 then 1/2
  else if 400 ≤ t ∧ t ≤ 599 then 1
  else if 600 ≤ t ∧ t ≤ 749 then 2
  else if 750 ≤ t ∧ t ≤ 899 then 7/2
  else if 900 ≤ t ∧ t ≤ 1000 then 6
  else 1/2

/-- `n_novelty` over `N_NOVELTY_TABLE` (discovery_service.py), default 0.05. -/
def n_novelty (c : ℕ) : ℚ :=
  if c = 0 then 1
  else if c ≤ 3 then 3/5
  else if c ≤ 10 then 3/10
  else if c ≤ 30 then 3/25
  else 1/20

/-- `S_STRANGER = 1.00`. -/
def S_STRANGER : ℚ := 1

/-- `S_FOLLOWER = 0.15`. -/
def S_FOLLOWER : ℚ := 3/20

/-- `DiscoveryService._get_novelty`: the interaction count is decremented
by one (the current like was already logged), floored at 0 — ℕ subtraction
does exactly this. -/
def getNovelty (c : ℕ) : ℚ := n_novelty (c - 1)

/-- `DiscoveryService._get_source`. -/
def getSource (follows : Bool) : ℚ := if follows then S_FOLLOWER else S_STRANGER

/-- `DiscoveryService.calculate_post_score`: the running
`total_score += w × n × s` loop over the post's likes — three factors
only. -/
def calculate_post_score (likes : List LikeInfo) : ℚ :=
  likes.foldl
    (fun acc l => acc + w_trust l.trustScore * getNovelty l.interCount * getSource l.follows) 0

/-- `TRUST_TIER_WEIGHTS` (like_weight_service.py — note purple is 4.0
here, not the 3.5 of `W_TRUST_TABLE`). -/
def TRUST_TIER_WEIGHTS : Trust.TrustTier → ℚ
  | .white => 1/2
  | .green => 1
  | .blue => 2
  | .purple => 4
  | .orange => 6

/-- `LikeWeightService._calc_n_novelty` over `NOVELTY_THRESHOLDS` — unlike
the discovery side, the raw count is used without the minus-one
adjustment. -/
def n_novelty_lw (c : ℕ) : ℚ :=
  if c ≤ 0 then 1
  else if c ≤ 3 then 3/5
  else if c ≤ 10 then 3/10
  else if c ≤ 30 then 3/25
  else if c ≤ 999999 then 1/20
  else 1/20

/-- `CROSS_CIRCLE_BONUS = 1.5`. -/
def CROSS_CIRCLE_BONUS : ℚ := 3/2

/-- `CABAL_PENALTY_ACTIVE = 0.3`, triggered at `risk ≥ 150`. -/
def calcCabalPenalty (l : LikeInfo) : ℚ := if 150 ≤ l.risk then 3/10 else 1

/-- `LikeWeightService._calc_w_trust`: recompute the trust score fresh
from the sub-scores and look the tier up in `TRUST_TIER_WEIGHTS`. -/
def calcWTrustLW (l : LikeInfo) : ℚ :=
  TRUST_TIER_WEIGHTS (Trust.trust_tier (Trust.compute_trust_score l.creator l.curator l.juror l.risk))

/-- The liker's tier as computed by the like-weight service. -/
def tierOfLiker (l : LikeInfo) : Trust.TrustTier :=
  Trust.trust_tier (Trust.compute_trust_score l.creator l.curator l.juror l.risk)

/-- The five tiers in table order. -/
def allTiers : List Trust.TrustTier := [.white, .green, .blue, .purple, .orange]

/-- `LikeWeightService._calc_ce_entropy`: with fewer than 2 likers return
1.0; otherwise the Shannon entropy (log base 2) of the tier distribution
of all likers, normalized by `log2 5` and rescaled onto
`[0.02, 10.0]` via `0.02 + normalized × 9.98` with clamping. -/
noncomputable def ce_entropy (likers : List LikeInfo) : ℝ :=
  if likers.length < 2 then 1
  else
    let tiers := likers.map tierOfLiker
    let total := tiers.length
    if total = 0 then 1
    else
      let count : Trust.TrustTier → ℕ := fun t => (tiers.filter (fun x => decide (x = t))).length
      let entropy : ℝ :=
        -(allTiers.map (fun t =>
            if 0 < count t then
              ((count t : ℝ) / total) * Real.logb 2 ((count t : ℝ) / total)
            else 0)).sum
      let normalized := entropy / Real.logb 2 5
      let ce := 1/50 + normalized * (499/50)
      min 10 (max (1/50) ce)

/-- `LikeWeightService.calculate_like_weight`'s `total_weight`:
`w_trust × n_novelty × s_source × ce_entropy × cross_circle ×
cabal_penalty`, where the cross-circle bonus fires for strangers. -/
noncomputable def calculate_like_weight (l : LikeInfo) (allLikers : List LikeInfo) : ℝ :=
  ((calcWTrustLW l : ℚ) : ℝ) * ((n_novelty_lw l.interCount : ℚ) : ℝ)
    * ((getSource l.follows : ℚ) : ℝ)
    * ce_entropy allLikers
    * ((if getSource l.follows = S_STRANGER then CROSS_CIRCLE_BONUS else 1 : ℚ) : ℝ)
    * ((calcCabalPenalty l : ℚ) : ℝ)

/-- Sum of the six-factor weights over a post's likes — what the claim
says the settlement Discovery Score equals. -/
noncomputable def sixFactorScore (likes : List LikeInfo) : ℝ :=
  (likes.map (fun l => calculate_like_weight l likes)).sum

/-- The spec scenario's liker: a fresh lowest-tier user (sub-scores at
their defaults, stored trust 135), first-time stranger interaction. -/
def scenLiker : LikeInfo :=
  { trustScore := 135, creator := 150, curator := 150, juror := 300, risk := 30,
    interCount := 0, follows := false }

end Discovery

theorem foldl_add_sum {α : Type} (f : α → ℚ) (l : List α) (a : ℚ) :
    l.foldl (fun acc x => acc + f x) a = a + (l.map f).sum := by
  induction l generalizing a with
  | nil => simp
  | cons x t ih => simp [List.foldl_cons, ih (a + f x)]; ring

theorem pyRound_eq_add_one_of_floor (q : ℚ) (n : ℤ) (hfl : ⌊q⌋ = n)
    (hlt : 1/2 < q - n) : pyRound q = n + 1 := by
  simp only [pyRound, hfl]
  rw [if_neg (by linarith), if_pos hlt]

/-- The scenario liker's freshly computed trust score is 135
(`150×0.6 + 150×0.3 + 0 − (30/50)² = 134.64`, rounded). -/
theorem scenLiker_trust : Trust.compute_trust_score 150 150 300 30 = 135 := by
  have harg : ((150 : ℤ) : ℚ) * (3/5) + ((150 : ℤ) : ℚ) * (3/10)
      + max 0 ((((300 : ℤ) : ℚ) - 300) * (1/10)) - (((30 : ℤ) : ℚ) / 50) ^ 2
      = 3366/25 := by norm_num
  have hfl : ⌊(3366/25 : ℚ)⌋ = 134 := by
    rw [Int.floor_eq_iff]
    norm_num
  simp only [Trust.compute_trust_score, if_pos (by norm_num : (30 : ℤ) ≤ 100)]
  rw [harg, pyRound_eq_add_one_of_floor (3366/25) 134 hfl (by push_cast; norm_num)]
  norm_num

theorem scenLiker_tier : Discovery.tierOfLiker Discovery.scenLiker = .white := by
  simp only [Discovery.tierOfLiker, Discovery.scenLiker, scenLiker_trust]
  norm_num [Trust.trust_tier]

/-- C4 counterexample: for the spec's own scenario — 3 likes, all
first-time stranger interactions from the lowest tier — the settlement
score (`calculate_post_score`) is `3 × 0.5 = 1.5`, while the sum of
six-factor like weights is `3 × (0.5 × 1 × 1 × 0.02 × 1.5 × 1) = 0.045`:
the settlement score contains no entropy, cross-circle or cabal factor. -/
theorem C4_discovery_score_counterexample :
    Discovery.calculate_post_score
        [Discovery.scenLiker, Discovery.scenLiker, Discovery.scenLiker] = 3/2
    ∧ Discovery.sixFactorScore
        [Discovery.scenLiker, Discovery.scenLiker, Discovery.scenLiker] = 9/200
    ∧ ((3/2 : ℚ) : ℝ) ≠ 9/200 := by
  refine ⟨?_, ?_, by norm_num⟩
  · norm_num [Discovery.calculate_post_score, Discovery.scenLiker, Discovery.w_trust,
      Discovery.getNovelty, Discovery.n_novelty, Discovery.getSource, Discovery.S_STRANGER]
  · have hce : Discovery.ce_entropy
        [Discovery.scenLiker, Discovery.scenLiker, Discovery.scenLiker] = 1/50 := by
      simp only [Discovery.ce_entropy, List.map_cons, List.map_nil, scenLiker_tier]
      rw [if_neg (by norm_num)]
      rw [if_neg (by norm_num)]
      have hw : ([Trust.TrustTier.white, .white, .white].filter
          (fun x => decide (x = Trust.TrustTier.white))).length = 3 := by decide
      have hg : ([Trust.TrustTier.white, .white, .white].filter
          (fun x => decide (x = Trust.TrustTier.green))).length = 0 := by decide
      have hb : ([Trust.TrustTier.white, .white, .white].filter
          (fun x => decide (x = Trust.TrustTier.blue))).length = 0 := by decide
      have hp : ([Trust.TrustTier.white, .white, .white].filter
          (fun x => decide (x = Trust.TrustTier.purple))).length = 0 := by decide
      have ho : ([Trust.TrustTier.white, .white, .white].filter
          (fun x => decide (x = Trust.TrustTier.orange))).length = 0 := by decide
      simp only [Discovery.allTiers, List.map_cons, List.map_nil, List.sum_cons,
        List.sum_nil, List.length_cons, List.length_nil, hw, hg, hb, hp, ho]
      norm_num [Real.logb_one]
    have hstep : Discovery.calculate_like_weight Discovery.scenLiker
        [Discovery.scenLiker, Discovery.scenLiker, Discovery.scenLiker] = 3/200 := by
      simp only [Discovery.calculate_like_weight, hce]
      simp only [Discovery.calcWTrustLW, Discovery.scenLiker, scenLiker_trust]
      norm_num [Trust.trust_tier, Discovery.TRUST_TIER_WEIGHTS, Discovery.n_novelty_lw,
        Discovery.getSource, Discovery.S_STRANGER, Discovery.CROSS_CIRCLE_BONUS,
        Discovery.calcCabalPenalty]
    simp only [Discovery.sixFactorScore, List.map_cons, List.map_nil, List.sum_cons,
      List.sum_nil, hstep]
    norm_num

/-- C4 (amended): the Discovery Score used for settlement is the sum over
likes of only the three factors `W_trust × N_novelty × S_source`; the
six-factor weight exists in `LikeWeightService` but is not what settlement
sums. For the spec scenario (3 first-time lowest-tier strangers) the
settlement score is `3 × 0.5 × 1.0 × 1.0 = 1.5`. -/
theorem C4_discovery_score (likes : List Discovery.LikeInfo) :
    Discovery.calculate_post_score likes
      = (likes.map (fun l =>
          Discovery.w_trust l.trustScore * Discovery.getNovelty l.interCount
            * Discovery.getSource l.follows)).sum
    ∧ Discovery.calculate_post_score
        [Discovery.scenLiker, Discovery.scenLiker, Discovery.scenLiker]
      = 3 * (Discovery.w_trust 135 * Discovery.getNovelty 0 * Discovery.getSource false) := by
  constructor
  · rw [Discovery.calculate_post_score, foldl_add_sum]
    ring
  · norm_num [Discovery.calculate_post_score, Discovery.scenLiker, Discovery.w_trust,
      Discovery.getNovelty, Discovery.n_novelty, Discovery.getSource, Discovery.S_STRANGER]

/-! ## Per-post reward split and comment settlement
(src/api/app/services/discovery_service.py: settle_mature_posts main loop
and _settle_comments) -/

namespace Discovery

/-- `AUTHOR_SHARE = 0.80`. -/
def AUTHOR_SHARE : ℚ := 4/5

/-- One comment with its like-set resolved (only top-level comments earn). -/
structure CommentInfo where
  id : ℕ
  authorId : ℕ
  topLevel : Bool
  likes : List LikeInfo
deriving Repr, DecidableEq

/-- `DiscoveryService.calculate_comment_score`: the same three-factor loop
over the comment's likes. -/
def calculate_comment_score (c : CommentInfo) : ℚ :=
  c.likes.foldl
    (fun acc l => acc + w_trust l.trustScore * getNovelty l.interCount * getSource l.follows) 0

/-- One step of the `_settle_comments` distribution loop: skip comments
with non-positive score or non-positive computed reward, otherwise record
the payout `int((score/total) × pool)` and add it to the running total. -/
def settleCommentStep (totalC : ℚ) (poolAmount : ℤ) (acc : List (CommentInfo × ℤ) × ℤ)
    (c : CommentInfo) : List (CommentInfo × ℤ) × ℤ :=
  let cs := calculate_comment_score c
  if cs ≤ 0 then acc
  else
    let reward := pyInt (cs / totalC * (poolAmount : ℚ))
    if reward ≤ 0 then acc
    else (acc.1 ++ [(c, reward)], acc.2 + reward)

/-- `DiscoveryService._settle_comments`: restrict to top-level comments,
bail out with nothing distributed when there are none or when the total
comment score is zero, otherwise distribute the pool proportionally.
Returns (payout list, total distributed). -/
def settle_comments (comments : List CommentInfo) (poolAmount : ℤ) :
    List (CommentInfo × ℤ) × ℤ :=
  let top := comments.filter (fun c => c.topLevel)
  if top.isEmpty then ([], 0)
  else
    let totalC := (top.map calculate_comment_score).sum
    if totalC = 0 then ([], 0)
    else top.foldl (settleCommentStep totalC poolAmount) ([], 0)

/-- The per-post outcome of the settlement main loop. -/
structure PostSettle where
  authorReward : ℤ
  commentPool : ℤ
  authorPaid : ℤ
  commentPayouts : List (CommentInfo × ℤ)
  totalDistributed : ℤ
deriving Repr, DecidableEq

/-- The per-post body of `settle_mature_posts`: the author share is
`int(post_reward_amount × 0.80)`, the comment pool is the remainder; the
author is paid their share when positive, and the comment pool is
distributed through `_settle_comments` when positive — there is no
fallback paying the pool to the author. -/
def settle_post_reward (r : ℤ) (comments : List CommentInfo) : PostSettle :=
  let authorReward := pyInt ((r : ℚ) * AUTHOR_SHARE)
  let commentPool := r - authorReward
  let authorPaid := if 0 < authorReward then authorReward else 0
  let distributed := if 0 < commentPool then settle_comments comments commentPool else ([], 0)
  { authorReward := authorReward, commentPool := commentPool, authorPaid := authorPaid,
    commentPayouts := distributed.1, totalDistributed := authorPaid + distributed.2 }

end Discovery

theorem Discovery.settleCommentStep_inv (totalC : ℚ) (pool : ℤ)
    (l : List Discovery.CommentInfo) (acc : List (Discovery.CommentInfo × ℤ) × ℤ)
    (h : acc.2 = (acc.1.map Prod.snd).sum) :
    (l.foldl (Discovery.settleCommentStep totalC pool) acc).2
      = ((l.foldl (Discovery.settleCommentStep totalC pool) acc).1.map Prod.snd).sum := by
  induction l generalizing acc with
  | nil => simpa using h
  | cons c t ih =>
      rw [List.foldl_cons]
      apply ih
      simp only [Discovery.settleCommentStep]
      split_ifs
      · exact h
      · exact h
      · simp [h]

theorem Discovery.settle_comments_snd (comments : List Discovery.CommentInfo) (pool : ℤ) :
    (Discovery.settle_comments comments pool).2
      = ((Discovery.settle_comments comments pool).1.map Prod.snd).sum := by
  simp only [Discovery.settle_comments]
  split_ifs
  · simp
  · simp
  · exact Discovery.settleCommentStep_inv _ _ _ _ (by simp)

/-- C5 (amended): the item reward is split into an author share
`⌊0.80 × r⌋` and a comment pool carrying the exact remainder, distributed
among top-level comments by comment-level Discovery Score; but when there
are no qualifying comments (no top-level comments, or zero total comment
score) the pool is simply left undistributed — the author receives only
the 80% share, never the full reward. -/
theorem C5_reward_split (r : ℤ) (comments : List Discovery.CommentInfo) (hr : 0 ≤ r) :
    (Discovery.settle_post_reward r comments).authorReward
        = ⌊(r : ℚ) * Discovery.AUTHOR_SHARE⌋
    ∧ (Discovery.settle_post_reward r comments).authorReward
        + (Discovery.settle_post_reward r comments).commentPool = r
    ∧ ((comments.filter (fun c => c.topLevel)).isEmpty = true →
        (Discovery.settle_post_reward r comments).commentPayouts = []
        ∧ (Discovery.settle_post_reward r comments).totalDistributed
            = (Discovery.settle_post_reward r comments).authorPaid)
    ∧ (((comments.filter (fun c => c.topLevel)).map Discovery.calculate_comment_score).sum = 0 →
        (Discovery.settle_post_reward r comments).commentPayouts = []
        ∧ (Discovery.settle_post_reward r comments).totalDistributed
            = (Discovery.settle_post_reward r comments).authorPaid)
    ∧ (Discovery.settle_post_reward r comments).totalDistributed
        = (Discovery.settle_post_reward r comments).authorPaid
          + (((Discovery.settle_post_reward r comments).commentPayouts.map Prod.snd)).sum := by
  have hfl : pyInt ((r : ℚ) * Discovery.AUTHOR_SHARE) = ⌊(r : ℚ) * Discovery.AUTHOR_SHARE⌋ := by
    apply Ledger.pyInt_nonneg
    have h1 : (0 : ℚ) ≤ (r : ℚ) := by exact_mod_cast hr
    have h2 : (0 : ℚ) ≤ Discovery.AUTHOR_SHARE := by norm_num [Discovery.AUTHOR_SHARE]
    exact mul_nonneg h1 h2
  refine ⟨?_, ?_, ?_, ?_, ?_⟩
  · simp [Discovery.settle_post_reward, hfl]
  · simp only [Discovery.settle_post_reward]
    omega
  · intro hempty
    constructor <;>
      simp [Discovery.settle_post_reward, Discovery.settle_comments, hempty]
  · intro hzero
    constructor <;>
      simp only [Discovery.settle_post_reward, Discovery.settle_comments] <;>
      split_ifs <;>
      simp_all
  · simp only [Discovery.settle_post_reward]
    have hsnd := Discovery.settle_comments_snd comments
      (r - pyInt ((r : ℚ) * Discovery.AUTHOR_SHARE))
    split_ifs <;> simp_all

/-- Witness for C5's amended statement at reward 100 with no comments:
the author share is 80 (and the last conjunct's sums agree). -/
theorem C5_reward_split_witness :
    (Discovery.settle_post_reward 100 []).authorReward
      = ⌊((100 : ℤ) : ℚ) * Discovery.AUTHOR_SHARE⌋ :=
  (C5_reward_split 100 [] (by norm_num)).1

/-- C5 counterexample: with item reward 100 and no comments the author is
paid 80  and the total distributed is 80 — the 20-sat secondary pool is
left undistributed instead of falling back to the author, so the author
is not paid in full. -/
theorem C5_reward_split_counterexample :
    (Discovery.settle_post_reward 100 []).authorPaid = 80
    ∧ (Discovery.settle_post_reward 100 []).totalDistributed = 80
    ∧ (80 : ℤ) ≠ 100 := by
  have hfl : pyInt ((100 : ℚ) * Discovery.AUTHOR_SHARE) = 80 := by
    have heq : ((100 : ℚ)) * Discovery.AUTHOR_SHARE = ((80 : ℤ) : ℚ) := by
      norm_num [Discovery.AUTHOR_SHARE]
    rw [heq, pyInt_intCast]
  refine ⟨?_, ?_, by norm_num⟩ <;>
    simp [Discovery.settle_post_reward, Discovery.settle_comments, hfl]

/-! ## Batch settlement state machine
(src/api/app/services/discovery_service.py: settle_mature_posts) -/

namespace Settlement

/-- `SettlementStatus` (src/api/app/models/reward.py). -/
inductive RewardStatus where
  | pending | settled
deriving Repr, DecidableEq

/-- `PoolStatus` (src/api/app/models/reward.py). -/
inductive PoolState where
  | pending | settled
deriving Repr, DecidableEq

/-- A `posts` row. -/
structure SPost where
  id : ℕ
  authorId : ℕ
  createdAt : ℕ
  status : Challenge.PostStatus
  costPaid : ℤ
deriving Repr, DecidableEq

/-- A `post_likes` row, with the novelty/follow query results for the
(liker, post author) pair attached. -/
structure SLike where
  postId : ℕ
  userId : ℕ
  follows : Bool
  interCount : ℕ
deriving Repr, DecidableEq

/-- A `comments` row (`topLevel` = `parent_id is None`). -/
structure SComment where
  id : ℕ
  postId : ℕ
  authorId : ℕ
  topLevel : Bool
  costPaid : ℤ
deriving Repr, DecidableEq

/-- A `comment_likes` row with query results attached. -/
structure SCommentLike where
  commentId : ℕ
  userId : ℕ
  follows : Bool
  interCount : ℕ
deriving Repr, DecidableEq

/-- The settlement-relevant columns of a `users` row. -/
structure SUser where
  balance : ℤ
  creator : ℤ
  curator : ℤ
  juror : ℤ
  risk : ℤ
  trustScore : ℤ
deriving Repr, DecidableEq

/-- A `post_rewards` row. -/
structure SPostReward where
  postId : ℕ
  score : ℚ
  authorReward : ℤ
  commentPool : ℤ
  status : RewardStatus
deriving Repr, DecidableEq

/-- A `comment_rewards` row. -/
structure SCommentReward where
  commentId : ℕ
  score : ℚ
  amount : ℤ
deriving Repr, DecidableEq

/-- A `reward_pools` row (`settleDate` models the settle-date key). -/
structure SPool where
  settleDate : ℕ
  totalPool : ℤ
  totalDistributed : ℤ
  postCount : ℕ
  status : PoolState
deriving Repr, DecidableEq

/-- The database state read and written by settlement. -/
structure DB where
  users : ℕ → SUser
  posts : List SPost
  likes : List SLike
  comments : List SComment
  commentLikes : List SCommentLike
  postRewards : List SPostReward
  commentRewards : List SCommentReward
  pools : List SPool

/-- Resolve a like row into the per-like scoring data (join with `users`). -/
def likeInfoOf (db : DB) (uid : ℕ) (follows : Bool) (interCount : ℕ) : Discovery.LikeInfo :=
  let u := db.users uid
  { trustScore := u.trustScore, creator := u.creator, curator := u.curator,
    juror := u.juror, risk := u.risk, interCount := interCount, follows := follows }

/-- The likes of one post, resolved. -/
def postLikes (db : DB) (pid : ℕ) : List Discovery.LikeInfo :=
  (db.likes.filter (fun l => decide (l.postId = pid))).map
    (fun l => likeInfoOf db l.userId l.follows l.interCount)

/-- `calculate_post_score` applied to the post's likes. -/
def postScore (db : DB) (pid : ℕ) : ℚ :=
  Discovery.calculate_post_score (postLikes db pid)

/-- One comment resolved with its like-set. -/
def commentInfoOf (db : DB) (c : SComment) : Discovery.CommentInfo :=
  { id := c.id, authorId := c.authorId, topLevel := c.topLevel,
    likes := (db.commentLikes.filter (fun cl => decide (cl.commentId = c.id))).map
      (fun cl => likeInfoOf db cl.userId cl.follows cl.interCount) }

/-- The comments of a post, resolved. -/
def postComments (db : DB) (pid : ℕ) : List Discovery.CommentInfo :=
  (db.comments.filter (fun c => decide (c.postId = pid))).map (commentInfoOf db)

/-- Does the post already have a SETTLED `PostReward` row (the
`~Post.id.in_(settled rewards)` subquery)? -/
def hasSettledReward (db : DB) (pid : ℕ) : Bool :=
  db.postRewards.any (fun r => decide (r.postId = pid) && decide (r.status = RewardStatus.settled))

/-- The batch: active posts at or before the cutoff with no settled reward. -/
def eligiblePosts (db : DB) (cutoff : ℕ) : List SPost :=
  db.posts.filter (fun p =>
    decide (p.createdAt ≤ cutoff) && decide (p.status = Challenge.PostStatus.active)
      && !(hasSettledReward db p.id))

/-- `_calculate_pool`: post fees + comment fees + 10 per like + 5 per
comment like, plus a 300-per-DAU emission with DAU estimated as the number
of distinct authors in the batch (at least 1). -/
def calcPool (db : DB) (posts : List SPost) : ℤ :=
  let postFees := (posts.map SPost.costPaid).sum
  let pids := posts.map SPost.id
  let batchComments := db.comments.filter (fun c => pids.contains c.postId)
  let commentFees := (batchComments.map SComment.costPaid).sum
  let likeCount := (db.likes.filter (fun l => pids.contains l.postId)).length
  let commentIds := batchComments.map SComment.id
  let commentLikeCount :=
    (db.commentLikes.filter (fun cl => commentIds.contains cl.commentId)).length
  let feesTotal := postFees + commentFees + 10 * (likeCount : ℤ) + 5 * (commentLikeCount : ℤ)
  let dauEstimate : ℤ := max ((posts.map SPost.authorId).dedup.length : ℤ) 1
  feesTotal + 300 * dauEstimate

/-- `LedgerService.earn` inside settlement: bump one user's balance (the
guard `amount > 0` holds at every call site). Ledger rows are appended in
the real system but are not read back by settlement. -/
def payUser (db : DB) (uid : ℕ) (amt : ℤ) : DB :=
  { db with users := fun x =>
      if x = uid then
        { db.users x with balance := (db.users x).balance + amt }
      else db.users x }

/-- `TrustScoreService.update_creator` on the users table. -/
def updCreator (db : DB) (uid : ℕ) (delta : ℤ) : DB :=
  { db with users := fun x =>
      if x = uid then
        let u := db.users x
        let c := Trust.clamp (u.creator + delta)
        { u with creator := c,
                 trustScore := Trust.compute_trust_score c u.curator u.juror u.risk }
      else db.users x }

/-- `TrustScoreService.update_curator` on the users table. -/
def updCurator (db : DB) (uid : ℕ) (delta : ℤ) : DB :=
  { db with users := fun x =>
      if x = uid then
        let u := db.users x
        let c := Trust.clamp (u.curator + delta)
        { u with curator := c,
                 trustScore := Trust.compute_trust_score u.creator c u.juror u.risk }
      else db.users x }

/-- Append the per-post `PostReward` row, created SETTLED. -/
def addPostReward (db : DB) (pid : ℕ) (score : ℚ) (authorReward commentPool : ℤ) : DB :=
  { db with postRewards := db.postRewards ++
      [{ postId := pid, score := score, authorReward := authorReward,
         commentPool := commentPool, status := .settled }] }

/-- Record one comment reward row and pay the comment's author. -/
def commentPayStep (db : DB) (pr : Discovery.CommentInfo × ℤ) : DB :=
  let db2 := { db with commentRewards := db.commentRewards ++
      [{ commentId := pr.1.id, score := Discovery.calculate_comment_score pr.1,
         amount := pr.2 }] }
  payUser db2 pr.1.authorId pr.2

/-- The per-post body of the settlement payment loop: compute the post's
share of the pool, create the settled `PostReward` row, pay the author
when their share is positive, and distribute the comment pool when
positive. Accumulates (state, total_distributed). -/
def settlePostStep (scores : ℕ → ℚ) (totalScores : ℚ) (poolAmount : ℤ)
    (acc : DB × ℤ) (p : SPost) : DB × ℤ :=
  let db := acc.1
  let dist := acc.2
  let score := scores p.id
  let postRewardAmount :=
    if 0 < totalScores ∧ 0 < score then pyInt (score / totalScores * (poolAmount : ℚ)) else 0
  let authorReward := pyInt ((postRewardAmount : ℚ) * Discovery.AUTHOR_SHARE)
  let commentPool := postRewardAmount - authorReward
  let db1 := addPostReward db p.id score authorReward commentPool
  let db2 := if 0 < authorReward then payUser db1 p.authorId authorReward else db1
  let dist2 := if 0 < authorReward then dist + authorReward else dist
  let res := Discovery.settle_comments (postComments db2 p.id) commentPool
  let db3 := if 0 < commentPool then res.1.foldl commentPayStep db2 else db2
  let dist3 := if 0 < commentPool then dist2 + res.2 else dist2
  (db3, dist3)

/-- Descending insertion (for `sorted(..., reverse=True)`). -/
def insertDesc (x : ℚ) : List ℚ → List ℚ
  | [] => [x]
  | y :: t => if y < x then x :: y :: t else y :: insertDesc x t

/-- Descending sort of the score values. -/
def sortDesc : List ℚ → List ℚ
  | [] => []
  | x :: t => insertDesc x (sortDesc t)

/-- The post-settlement trust updates for one post: creator +3 for a
settled post with engagement (−1 for zero engagement), a 5–15 bonus when
in the top decile, and curator +1 for every liker of a rewarded post. -/
def trustStep (scores : ℕ → ℚ) (thr : ℚ) (db : DB) (p : SPost) : DB :=
  let score := scores p.id
  let db1 := if 0 < score then updCreator db p.authorId 3 else updCreator db p.authorId (-1)
  let db2 :=
    if thr ≤ score ∧ 0 < thr then
      updCreator db1 p.authorId (min 15 (max 5 (pyInt score)))
    else db1
  if 0 < score then
    (db2.likes.filter (fun l => decide (l.postId = p.id))).foldl
      (fun d l => updCurator d l.userId 1) db2
  else db2

/-- Get-or-create today's `RewardPool` row and add this batch to it. -/
def upsertPool (db : DB) (d : ℕ) (poolAmount : ℤ) (count : ℕ) : DB :=
  if db.pools.any (fun pl => decide (pl.settleDate = d)) then
    { db with pools := db.pools.map (fun pl =>
        if pl.settleDate = d then
          { pl with totalPool := pl.totalPool + poolAmount, postCount := pl.postCount + count }
        else pl) }
  else
    { db with pools := db.pools ++
        [{ settleDate := d, totalPool := poolAmount, totalDistributed := 0,
           postCount := count, status := .pending }] }

/-- Final pool bookkeeping: record the distributed total and mark settled. -/
def finishPool (db : DB) (d : ℕ) (dist : ℤ) : DB :=
  { db with pools := db.pools.map (fun pl =>
      if pl.settleDate = d then
        { pl with totalDistributed := dist, status := .settled }
      else pl) }

/-- The summary dict returned by `settle_mature_posts`. -/
structure Summary where
  settleDate : ℕ
  postsSettled : ℕ
  pool : ℤ
  totalDistributed : ℤ
deriving Repr, DecidableEq

/-- `DiscoveryService.settle_mature_posts` for a given cutoff: select the
unsettled matured batch (returning immediately when it is empty), compute
all Discovery Scores up front, build the pool, create/update the
`RewardPool` row, run the per-post payment loop, apply the trust updates
with the top-decile threshold, and close the pool. -/
def settle_mature_posts (cutoff : ℕ) (db : DB) : DB × Summary :=
  let elig := eligiblePosts db cutoff
  if elig.isEmpty then
    (db, { settleDate := cutoff, postsSettled := 0, pool := 0, totalDistributed := 0 })
  else
    let scores : ℕ → ℚ := fun pid => postScore db pid
    let totalScores := (elig.map (fun p => scores p.id)).sum
    let poolAmount := calcPool db elig
    let db1 := upsertPool db cutoff poolAmount elig.length
    let res := elig.foldl (settlePostStep scores totalScores poolAmount) (db1, 0)
    let vals := sortDesc (elig.map (fun p => scores p.id))
    let thr := if vals.isEmpty then 0 else vals.getD (vals.length / 10) 0
    let db3 := elig.foldl (trustStep scores thr) res.1
    let db4 := finishPool db3 cutoff res.2
    (db4, { settleDate := cutoff, postsSettled := elig.length, pool := poolAmount,
            totalDistributed := res.2 })

end Settlement

namespace Settlement

theorem payUser_posts (db : DB) (uid : ℕ) (amt : ℤ) : (payUser db uid amt).posts = db.posts := rfl

theorem payUser_postRewards (db : DB) (uid : ℕ) (amt : ℤ) :
    (payUser db uid amt).postRewards = db.postRewards := rfl

theorem commentPayStep_posts (db : DB) (pr : Discovery.CommentInfo × ℤ) :
    (commentPayStep db pr).posts = db.posts := rfl

theorem commentPayStep_postRewards (db : DB) (pr : Discovery.CommentInfo × ℤ) :
    (commentPayStep db pr).postRewards = db.postRewards := rfl

theorem commentPayFold_posts (l : List (Discovery.CommentInfo × ℤ)) (db : DB) :
    (l.foldl commentPayStep db).posts = db.posts := by
  induction l generalizing db with
  | nil => rfl
  | cons x t ih => rw [List.foldl_cons, ih, commentPayStep_posts]

theorem commentPayFold_postRewards (l : List (Discovery.CommentInfo × ℤ)) (db : DB) :
    (l.foldl commentPayStep db).postRewards = db.postRewards := by
  induction l generalizing db with
  | nil => rfl
  | cons x t ih => rw [List.foldl_cons, ih, commentPayStep_postRewards]

theorem settlePostStep_posts (sc : ℕ → ℚ) (ts : ℚ) (pa : ℤ) (acc : DB × ℤ) (p : SPost) :
    (settlePostStep sc ts pa acc p).1.posts = acc.1.posts := by
  simp only [settlePostStep]
  split_ifs <;>
    simp [commentPayFold_posts, payUser_posts, addPostReward]

theorem settlePostStep_rewards_mono (sc : ℕ → ℚ) (ts : ℚ) (pa : ℤ) (acc : DB × ℤ)
    (p : SPost) (r : SPostReward) (h : r ∈ acc.1.postRewards) :
    r ∈ (settlePostStep sc ts pa acc p).1.postRewards := by
  simp only [settlePostStep]
  split_ifs <;>
    simp [commentPayFold_postRewards, payUser_postRewards, addPostReward,
      List.mem_append, h]

theorem settlePostStep_hasSettled (sc : ℕ → ℚ) (ts : ℚ) (pa : ℤ) (acc : DB × ℤ)
    (p : SPost) :
    hasSettledReward (settlePostStep sc ts pa acc p).1 p.id = true := by
  simp only [settlePostStep]
  split_ifs <;>
    simp [hasSettledReward, commentPayFold_postRewards, payUser_postRewards,
      addPostReward, List.any_append]

theorem settleFold_posts (sc : ℕ → ℚ) (ts : ℚ) (pa : ℤ) (l : List SPost) (acc : DB × ℤ) :
    ((l.foldl (settlePostStep sc ts pa) acc).1).posts = acc.1.posts := by
  induction l generalizing acc with
  | nil => rfl
  | cons p t ih => rw [List.foldl_cons, ih, settlePostStep_posts]

theorem settleFold_rewards_mono (sc : ℕ → ℚ) (ts : ℚ) (pa : ℤ) (l : List SPost)
    (acc : DB × ℤ) (r : SPostReward) (h : r ∈ acc.1.postRewards) :
    r ∈ ((l.foldl (settlePostStep sc ts pa) acc).1).postRewards := by
  induction l generalizing acc with
  | nil => exact h
  | cons p t ih =>
      rw [List.foldl_cons]
      exact ih _ (settlePostStep_rewards_mono sc ts pa acc p r h)

theorem hasSettled_of_mem (db : DB) (pid : ℕ) (r : SPostReward) (hmem : r ∈ db.postRewards)
    (hpid : r.postId = pid) (hst : r.status = .settled) :
    hasSettledReward db pid = true := by
  simp only [hasSettledReward, List.any_eq_true]
  exact ⟨r, hmem, by simp [hpid, hst]⟩

theorem hasSettled_elim (db : DB) (pid : ℕ) (h : hasSettledReward db pid = true) :
    ∃ r ∈ db.postRewards, r.postId = pid ∧ r.status = RewardStatus.settled := by
  simpa [hasSettledReward, List.any_eq_true] using h

theorem settleFold_settles (sc : ℕ → ℚ) (ts : ℚ) (pa : ℤ) (l : List SPost)
    (acc : DB × ℤ) (q : SPost) (hq : q ∈ l) :
    hasSettledReward ((l.foldl (settlePostStep sc ts pa) acc).1) q.id = true := by
  induction l generalizing acc with
  | nil => cases hq
  | cons p t ih =>
      rw [List.foldl_cons]
      rcases List.mem_cons.mp hq with heq | ht
      · subst heq
        obtain ⟨r, hr, hpid, hst⟩ :=
          hasSettled_elim _ _ (settlePostStep_hasSettled sc ts pa acc q)
        exact hasSettled_of_mem _ _ r
          (settleFold_rewards_mono sc ts pa t _ r hr) hpid hst
      · exact ih _ ht

theorem updCreator_posts (db : DB) (uid : ℕ) (delta : ℤ) :
    (updCreator db uid delta).posts = db.posts := rfl

theorem updCreator_postRewards (db : DB) (uid : ℕ) (delta : ℤ) :
    (updCreator db uid delta).postRewards = db.postRewards := rfl

theorem updCurator_posts (db : DB) (uid : ℕ) (delta : ℤ) :
    (updCurator db uid delta).posts = db.posts := rfl

theorem updCurator_postRewards (db : DB) (uid : ℕ) (delta : ℤ) :
    (updCurator db uid delta).postRewards = db.postRewards := rfl

theorem curatorFold_posts (l : List SLike) (db : DB) :
    (l.foldl (fun d x => updCurator d x.userId 1) db).posts = db.posts := by
  induction l generalizing db with
  | nil => rfl
  | cons x t ih => rw [List.foldl_cons, ih, updCurator_posts]

theorem curatorFold_postRewards (l : List SLike) (db : DB) :
    (l.foldl (fun d x => updCurator d x.userId 1) db).postRewards = db.postRewards := by
  induction l generalizing db with
  | nil => rfl
  | cons x t ih => rw [List.foldl_cons, ih, updCurator_postRewards]

theorem trustStep_posts (sc : ℕ → ℚ) (thr : ℚ) (db : DB) (p : SPost) :
    (trustStep sc thr db p).posts = db.posts := by
  simp only [trustStep]
  split_ifs <;>
    simp [curatorFold_posts, updCreator_posts]

theorem trustStep_postRewards (sc : ℕ → ℚ) (thr : ℚ) (db : DB) (p : SPost) :
    (trustStep sc thr db p).postRewards = db.postRewards := by
  simp only [trustStep]
  split_ifs <;>
    simp [curatorFold_postRewards, updCreator_postRewards]

theorem trustFold_posts (sc : ℕ → ℚ) (thr : ℚ) (l : List SPost) (db : DB) :
    (l.foldl (trustStep sc thr) db).posts = db.posts := by
  induction l generalizing db with
  | nil => rfl
  | cons p t ih => rw [List.foldl_cons, ih, trustStep_posts]

theorem trustFold_postRewards (sc : ℕ → ℚ) (thr : ℚ) (l : List SPost) (db : DB) :
    (l.foldl (trustStep sc thr) db).postRewards = db.postRewards := by
  induction l generalizing db with
  | nil => rfl
  | cons p t ih => rw [List.foldl_cons, ih, trustStep_postRewards]

theorem upsertPool_posts (db : DB) (d : ℕ) (pa : ℤ) (c : ℕ) :
    (upsertPool db d pa c).posts = db.posts := by
  simp only [upsertPool]
  split_ifs <;> rfl

theorem upsertPool_postRewards (db : DB) (d : ℕ) (pa : ℤ) (c : ℕ) :
    (upsertPool db d pa c).postRewards = db.postRewards := by
  simp only [upsertPool]
  split_ifs <;> rfl

theorem finishPool_posts (db : DB) (d : ℕ) (dist : ℤ) :
    (finishPool db d dist).posts = db.posts := rfl

theorem finishPool_postRewards (db : DB) (d : ℕ) (dist : ℤ) :
    (finishPool db d dist).postRewards = db.postRewards := rfl

/-- After a non-empty settlement run, every post that passes the date and
status tests has a settled reward, so the next batch is empty. -/
theorem eligible_after_settle (cutoff : ℕ) (db : DB) :
    eligiblePosts (settle_mature_posts cutoff db).1 cutoff = [] := by
  by_cases hE : (eligiblePosts db cutoff).isEmpty
  · have h0 : settle_mature_posts cutoff db =
        (db, { settleDate := cutoff, postsSettled := 0, pool := 0, totalDistributed := 0 }) := by
      simp [settle_mature_posts, hE]
    rw [h0]
    exact List.isEmpty_iff.mp hE
  · simp only [settle_mature_posts, hE, Bool.false_eq_true, if_false]
    set elig := eligiblePosts db cutoff with helig
    set scores : ℕ → ℚ := fun pid => postScore db pid with hscores
    set totalScores := (elig.map (fun p => scores p.id)).sum with hts
    set poolAmount := calcPool db elig with hpa
    set db1 := upsertPool db cutoff poolAmount elig.length with hdb1
    set res := elig.foldl (settlePostStep scores totalScores poolAmount) (db1, 0) with hres
    set vals := sortDesc (elig.map (fun p => scores p.id)) with hvals
    set thr := (if vals.isEmpty then 0 else vals.getD (vals.length / 10) 0 : ℚ) with hthr
    set db3 := elig.foldl (trustStep scores thr) res.1 with hdb3
    set db4 := finishPool db3 cutoff res.2 with hdb4
    have hposts : db4.posts = db.posts := by
      rw [hdb4, finishPool_posts, hdb3, trustFold_posts, hres, settleFold_posts,
        hdb1, upsertPool_posts]
    have hmono : ∀ r ∈ db.postRewards, r ∈ db4.postRewards := by
      intro r hr
      rw [hdb4, finishPool_postRewards, hdb3, trustFold_postRewards]
      apply settleFold_rewards_mono
      rw [hdb1, upsertPool_postRewards]
      exact hr
    have hsettled : ∀ p ∈ elig, hasSettledReward db4 p.id = true := by
      intro p hp
      have h2 : hasSettledReward res.1 p.id = true := by
        rw [hres]
        exact settleFold_settles scores totalScores poolAmount elig (db1, 0) p hp
      obtain ⟨r, hr, hpid, hst⟩ := hasSettled_elim _ _ h2
      apply hasSettled_of_mem db4 p.id r _ hpid hst
      rw [hdb4, finishPool_postRewards, hdb3, trustFold_postRewards]
      exact hr
    rw [eligiblePosts, hposts]
    rw [List.filter_eq_nil_iff]
    intro p hp
    intro hpred
    rw [Bool.and_assoc, Bool.and_eq_true, Bool.and_eq_true] at hpred
    obtain ⟨hdate, hstatus, hnot⟩ := hpred
    have hsettled4 : hasSettledReward db4 p.id = true := by
      by_cases hprev : hasSettledReward db p.id = true
      · obtain ⟨r, hr, hpid, hst⟩ := hasSettled_elim _ _ hprev
        exact hasSettled_of_mem db4 p.id r (hmono r hr) hpid hst
      · have hpelig : p ∈ elig := by
          rw [helig, eligiblePosts, List.mem_filter]
          refine ⟨hp, ?_⟩
          rw [Bool.and_assoc, Bool.and_eq_true, Bool.and_eq_true]
          exact ⟨hdate, hstatus, by simp [Bool.eq_false_iff.mpr hprev]⟩
        exact hsettled p hpelig
    rw [hsettled4] at hnot
    simp at hnot

end Settlement

/-- C3: settlement is idempotent — running `settle_mature_posts` a second
time with the same cutoff over the state produced by the first run is a
no-op: the state (balances, every PostReward row and status, every pool's
total_distributed) is returned unchanged and the summary reports zero
posts settled, zero pool and zero distributed. -/
theorem C3_settlement_idempotent (cutoff : ℕ) (db : Settlement.DB) :
    Settlement.settle_mature_posts cutoff (Settlement.settle_mature_posts cutoff db).1
      = ((Settlement.settle_mature_posts cutoff db).1,
         { settleDate := cutoff, postsSettled := 0, pool := 0, totalDistributed := 0 }) := by
  have h := Settlement.eligible_after_settle cutoff db
  rw [Settlement.settle_mature_posts]
  rw [h]
  rfl

end Lambo
